import Mathlib

/-!
Verification of the watermark geometry and compositing engine of the
watermark-openapi repository.

The repository contains two parallel implementations of the engine:

* `StandaloneImageProcessorService` in `src/adapters/standalone-services.ts`
  (used by the Hono route in `src/app.ts`), and
* the NestJS `ImageProcessorService` embedded in
  `src/modules/watermark/dto/frequency.dto.ts` (lines 93 onward).

Both are embedded here, each in its own namespace.  Numbers that JavaScript
handles as doubles are modelled as exact rationals; all concrete inputs used
in the theorems are far from any double-rounding boundary.  JavaScript
`Math.floor` is the rational floor, `Math.round` rounds half toward positive
infinity, and the remainder operator on integers truncates toward zero
(`Int.tmod`).
-/

namespace Watermark

/-- JavaScript `Math.round`: floor of x + 1/2 (round half up). -/
def jsRound (q : ℚ) : ℤ := ⌊q + 1/2⌋

/-- JavaScript `a || d` for a possibly-undefined numeric `a`: the default is
taken when `a` is `undefined` or `0` (both falsy). NaN is not modelled; it
cannot arise from the validated inputs considered here. -/
def jsOrQ (v : Option ℚ) (d : ℚ) : ℚ :=
  match v with
  | none => d
  | some x => if x = 0 then d else x

/-- JavaScript `a || d` for a possibly-undefined string `a`: the default is
taken when `a` is `undefined` or the empty string (both falsy). -/
def jsOrStr (v : Option String) (d : String) : String :=
  match v with
  | none => d
  | some s => if s = "" then d else s

/-- JavaScript loop `for (let y = start; y < bound; y += step)` collecting the
successive values of `y`.  The `0 < step` conjunct only encodes that the
source loops terminate for the validated inputs (spacing is at least 20);
for nonpositive step the JavaScript loop would either not run or diverge. -/
def jsForLoop (step bound y : ℚ) : List ℚ :=
  if h : 0 < step ∧ y < bound then y :: jsForLoop step bound (y + step) else []
termination_by (⌈(bound - y) / step⌉).toNat
decreasing_by
  have hs := h.1
  have hy' := h.2
  have h1 : 0 < ⌈(bound - y) / step⌉ := Int.ceil_pos.mpr (div_pos (by linarith) hs)
  have h2 : (bound - (y + step)) / step = (bound - y) / step - 1 := by
    rw [show bound - (y + step) = (bound - y) - step by ring]
    rw [sub_div, div_self (ne_of_gt hs)]
  rw [h2, Int.ceil_sub_one]
  omega

/-- The loop `for (let y = start; y < bound; y += step)` visits exactly the
values start + k * step for k below the ceiling of (bound - start) / step. -/
theorem jsForLoop_eq (step bound : ℚ) (hs : 0 < step) (y : ℚ) :
    jsForLoop step bound y =
      (List.range ((⌈(bound - y) / step⌉).toNat)).map (fun k : ℕ => y + k * step) := by
  have key : ∀ n : ℕ, ∀ z : ℚ, (⌈(bound - z) / step⌉).toNat = n →
      jsForLoop step bound z =
        (List.range ((⌈(bound - z) / step⌉).toNat)).map (fun k : ℕ => z + k * step) := by
    intro n
    induction n using Nat.strong_induction_on with
    | _ n ih =>
      intro z hn
      rw [jsForLoop]
      by_cases hz : z < bound
      · rw [dif_pos ⟨hs, hz⟩]
        have hpos : 0 < ⌈(bound - z) / step⌉ :=
          Int.ceil_pos.mpr (div_pos (by linarith) hs)
        have hstep : (bound - (z + step)) / step = (bound - z) / step - 1 := by
          rw [show bound - (z + step) = (bound - z) - step by ring]
          rw [sub_div, div_self (ne_of_gt hs)]
        have hdec : (⌈(bound - (z + step)) / step⌉).toNat = n - 1 := by
          rw [hstep, Int.ceil_sub_one]; omega
        have hlt : n - 1 < n := by omega
        have htail := ih (n - 1) hlt (z + step) hdec
        rw [htail, hn, hdec]
        have hsucc : n = (n - 1) + 1 := by omega
        rw [hsucc, List.range_succ_eq_map]
        simp only [List.map_cons, List.map_map, Nat.cast_zero, zero_mul, add_zero,
          Nat.sub_add_cancel, List.cons.injEq, true_and]
        apply List.map_congr_left
        intro k _
        simp only [Function.comp_apply, Nat.succ_eq_add_one]
        push_cast
        ring
      · rw [dif_neg (by tauto)]
        have : ⌈(bound - z) / step⌉ ≤ 0 := by
          have hnum : bound - z ≤ 0 := by linarith [not_lt.mp hz]
          have hq : (bound - z) / step ≤ 0 := div_nonpos_iff.mpr (Or.inr ⟨hnum, le_of_lt hs⟩)
          exact Int.ceil_le.mpr (by exact_mod_cast hq)
        rw [Int.toNat_of_nonpos this]
        simp
  exact key _ y rfl

/-- Evaluation helper: the ceiling of a rational, as a natural number. -/
theorem ceil_toNat_eq (a : ℚ) (n : ℕ) (h1 : (n : ℚ) - 1 < a) (h2 : a ≤ (n : ℚ)) :
    (⌈a⌉).toNat = n := by
  have h : ⌈a⌉ = (n : ℤ) := by
    rw [Int.ceil_eq_iff]
    exact ⟨by push_cast; linarith, by push_cast; linarith⟩
  rw [h]
  exact Int.toNat_natCast n

/-- Evaluation helper: a nonpositive rational has ceiling-toNat zero. -/
theorem ceil_toNat_zero (a : ℚ) (h : a ≤ 0) : (⌈a⌉).toNat = 0 := by
  have : ⌈a⌉ ≤ 0 := Int.ceil_le.mpr (by exact_mod_cast h)
  omega

/-- Closed form of the loop with an explicitly supplied iteration count. -/
theorem jsForLoop_eval (step bound y : ℚ) (n : ℕ) (hs : 0 < step)
    (h1 : (n : ℚ) - 1 < (bound - y) / step) (h2 : (bound - y) / step ≤ (n : ℚ)) :
    jsForLoop step bound y = (List.range n).map (fun k : ℕ => y + k * step) := by
  rw [jsForLoop_eq step bound hs y, ceil_toNat_eq _ n h1 h2]

/-- The loop produces nothing when the bound is not above the start. -/
theorem jsForLoop_eval_nil (step bound y : ℚ) (hs : 0 < step) (h : bound ≤ y) :
    jsForLoop step bound y = [] := by
  rw [jsForLoop_eq step bound hs y, ceil_toNat_zero, List.range_zero, List.map_nil]
  exact div_nonpos_iff.mpr (Or.inr ⟨by linarith, le_of_lt hs⟩)

/-- Placement mode of a watermark request (frequency.dto.ts, FrequencyMode). -/
inductive FrequencyMode
  | single
  | grid
  | diagonal_tile
deriving DecidableEq, Repr

/-- Position produced by the NestJS ImageProcessorService (frequency.dto.ts,
WatermarkPosition: fields x and y). -/
structure WatermarkPosition where
  x : ℚ
  y : ℚ
deriving DecidableEq, Repr

/-- Position produced by the StandaloneImageProcessorService
(standalone-services.ts: objects with fields top and left, pushed as
top/left pairs). -/
structure StandalonePosition where
  top : ℚ
  left : ℚ
deriving DecidableEq, Repr

/-- Position enum of the NestJS DTO (frequency.dto.ts lines 17-23):
five anchors, spelled with underscores. -/
inductive Position
  | top_left
  | top_right
  | bottom_left
  | bottom_right
  | center
deriving DecidableEq, Repr

/-- String value carried by each Position enum member. -/
def Position.key : Position → String
  | .top_left => "top_left"
  | .top_right => "top_right"
  | .bottom_left => "bottom_left"
  | .bottom_right => "bottom_right"
  | .center => "center"

/-- Value produced by a JavaScript bracket lookup on an object literal:
either an own entry of the literal, or the value inherited from
Object.prototype when the key names one of its properties — a truthy
value that is not a position at all. -/
inductive JsProp (α : Type)
  | own (value : α)
  | inherited (key : String)
deriving DecidableEq, Repr

/-- Property names every object literal inherits from Object.prototype;
bracket lookup with these keys yields a truthy non-position value (a
function, or for __proto__ the prototype object). -/
def objectProtoKeys : List String :=
  ["constructor", "hasOwnProperty", "isPrototypeOf", "propertyIsEnumerable",
   "toLocaleString", "toString", "valueOf", "__proto__", "__defineGetter__",
   "__defineSetter__", "__lookupGetter__", "__lookupSetter__"]

/-- JavaScript bracket lookup on an object literal whose own entries are
given by found: an own key shadows the prototype; a key named after an
Object.prototype property yields the inherited truthy value; anything else
is undefined. -/
def jsRecordGet {α : Type} (found : Option α) (key : String) : Option (JsProp α) :=
  match found with
  | some v => some (JsProp.own v)
  | none => if key ∈ objectProtoKeys then some (JsProp.inherited key) else none

namespace ImageProcessorService

/-- NestJS calculateGridPositions (frequency.dto.ts lines 333-347):
for (let y = spacing / 2; y < height; y += spacing)
  for (let x = spacing / 2; x < width; x += spacing) push x, y. -/
def calculateGridPositions (spacing width height : ℚ) : List WatermarkPosition :=
  (jsForLoop spacing height (spacing / 2)).flatMap (fun y =>
    (jsForLoop spacing width (spacing / 2)).map (fun x => ⟨x, y⟩))

/-- Horizontal offset of a DiagonalTile row: 0 on rows whose index
Math.floor(y / spacing) has truncated remainder 0 modulo 2, spacing / 2
otherwise (frequency.dto.ts line 363). -/
def diagRowOffset (spacing y : ℚ) : ℚ :=
  if (⌊y / spacing⌋).tmod 2 = 0 then 0 else spacing / 2

/-- NestJS calculateDiagonalPositions (frequency.dto.ts lines 352-370):
for (let y = -spacing; y < height + spacing; y += spacing)
  for (let x = -spacing; x < width + spacing; x += spacing)
    push x + (parity offset), y. -/
def calculateDiagonalPositions (spacing width height : ℚ) : List WatermarkPosition :=
  (jsForLoop spacing (height + spacing) (-spacing)).flatMap (fun y =>
    (jsForLoop spacing (width + spacing) (-spacing)).map (fun x =>
      ⟨x + diagRowOffset spacing y, y⟩))

/-- NestJS calculateSinglePosition lookup table (frequency.dto.ts lines
319-325): five underscore-keyed anchors. -/
def singleTable (margin width height : ℚ) (position : String) : Option WatermarkPosition :=
  if position = "top_left" then some ⟨margin, margin⟩
  else if position = "top_right" then some ⟨width - margin, margin⟩
  else if position = "bottom_left" then some ⟨margin, height - margin⟩
  else if position = "bottom_right" then some ⟨width - margin, height - margin⟩
  else if position = "center" then some ⟨width / 2, height / 2⟩
  else none

/-- NestJS calculateSinglePosition (frequency.dto.ts lines 311-328):
margin defaults via JavaScript truthiness (margin_px or 24), position
defaults to bottom_right, and positions at pos or positions.bottom_right
falls back to the bottom_right entry only when the bracket lookup is falsy:
a key naming an Object.prototype property returns the truthy inherited
value instead, which then flows on in place of a position. -/
def calculateSinglePosition (margin_px : Option ℚ) (position : Option String)
    (width height : ℚ) : JsProp WatermarkPosition :=
  let margin := jsOrQ margin_px 24
  let pos := jsOrStr position "bottom_right"
  (jsRecordGet (singleTable margin width height pos) pos).getD
    (JsProp.own ⟨width - margin, height - margin⟩)

end ImageProcessorService

namespace StandaloneImageProcessorService

/-- Standalone calculateSinglePosition lookup table (standalone-services.ts
lines 225-235): nine hyphen-keyed anchors with hard-coded offsets (20 px
edge inset and an implicit 120 by 60 overlay), independent of margin_px. -/
def singleTable (width height : ℚ) (position : String) : Option StandalonePosition :=
  if position = "top-left" then some ⟨20, 20⟩
  else if position = "top-center" then some ⟨20, (⌊width / 2⌋ : ℚ) - 60⟩
  else if position = "top-right" then some ⟨20, width - 120⟩
  else if position = "center-left" then some ⟨(⌊height / 2⌋ : ℚ) - 30, 20⟩
  else if position = "center" then some ⟨(⌊height / 2⌋ : ℚ) - 30, (⌊width / 2⌋ : ℚ) - 60⟩
  else if position = "center-right" then some ⟨(⌊height / 2⌋ : ℚ) - 30, width - 120⟩
  else if position = "bottom-left" then some ⟨height - 60, 20⟩
  else if position = "bottom-center" then some ⟨height - 60, (⌊width / 2⌋ : ℚ) - 60⟩
  else if position = "bottom-right" then some ⟨height - 60, width - 120⟩
  else none

/-- The nine keys recognised by the standalone lookup table. -/
def hyphenKeys : List String :=
  ["top-left", "top-center", "top-right", "center-left", "center",
   "center-right", "bottom-left", "bottom-center", "bottom-right"]

/-- The five keys recognised by the NestJS lookup table. -/
def underscoreKeys : List String :=
  ["top_left", "top_right", "bottom_left", "bottom_right", "center"]

/-- Standalone calculateSinglePosition (standalone-services.ts lines
220-237): returns a one-element array; positions at position, or
positions.center falls back to the center entry only when the bracket
lookup is falsy — a key naming an Object.prototype property returns the
truthy inherited value instead, which is then pushed in place of a
position. -/
def calculateSinglePosition (width height : ℚ) (position : String) :
    List (JsProp StandalonePosition) :=
  [(jsRecordGet (singleTable width height position) position).getD
    (JsProp.own ⟨(⌊height / 2⌋ : ℚ) - 30, (⌊width / 2⌋ : ℚ) - 60⟩)]

/-- Standalone calculateGridPositions (standalone-services.ts lines 239-251):
for (let y = 0; y < height; y += spacing)
  for (let x = 0; x < width; x += spacing) push top y, left x. -/
def calculateGridPositions (width height spacing : ℚ) : List StandalonePosition :=
  (jsForLoop spacing height 0).flatMap (fun y =>
    (jsForLoop spacing width 0).map (fun x => ⟨y, x⟩))

/-- Any natural number bound works for the square comparison once it clears
max D 1 / s, so the count below is well defined. -/
theorem exists_sq_bound (D s : ℚ) (hs : 0 < s) (hD : 0 ≤ D) :
    ∃ n : ℕ, D ≤ ((n : ℚ) * s) ^ 2 := by
  obtain ⟨n, hn⟩ := exists_nat_gt (max D 1 / s)
  refine ⟨n, ?_⟩
  have h1 : max D 1 ≤ n * s := by
    rw [div_lt_iff hs] at hn
    exact le_of_lt hn
  have h2 : (1 : ℚ) ≤ n * s := le_trans (le_max_right D 1) h1
  nlinarith [le_max_left D 1]

/-- Math.ceil(Math.sqrt D / s): the least natural n with D at most (n*s)^2,
which is exactly the ceiling of the exact real square root of D divided
by s.  Junk value 0 outside the domain (the source computes it only for
positive spacing and nonnegative D = width^2 + height^2). -/
def ceilSqrtDiv (D s : ℚ) : ℕ :=
  if h : 0 < s ∧ 0 ≤ D then Nat.find (exists_sq_bound D s h.1 h.2) else 0

/-- Standalone calculateDiagonalPositions (standalone-services.ts lines
253-272): count = ceil(sqrt(width^2 + height^2) / spacing); nested loops
over i, j below count with x = i * spacing - height and y = j * spacing,
keeping points with -spacing <= x <= width + spacing and
-spacing <= y <= height + spacing, pushed as top y, left x.  There is no
row-parity stagger in this implementation. -/
def calculateDiagonalPositions (width height spacing : ℚ) :
    List StandalonePosition :=
  let count := ceilSqrtDiv (width * width + height * height) spacing
  (List.range count).flatMap (fun i =>
    (List.range count).filterMap (fun j =>
      let x : ℚ := i * spacing - height
      let y : ℚ := j * spacing
      if -spacing ≤ x ∧ x ≤ width + spacing ∧ -spacing ≤ y ∧ y ≤ height + spacing
      then some ⟨y, x⟩ else none))

end StandaloneImageProcessorService

/-- Encoder invocation produced by the final output-format step: which sharp
encoder is called and, for jpeg/webp, with which quality option. -/
inductive Encoder
  | jpeg (quality : ℕ)
  | webp (quality : ℕ)
  | png
deriving DecidableEq, Repr

/-- Errors raised by the processWatermark gate before any output exists. -/
inductive ProcError
  | invalidMetadata
  | imageTooLarge
deriving DecidableEq, Repr

/-- Modelled from the spec: the sharp raster collaborator's dest-in composite
with a tiled 1 by 1 pixel of alpha tileAlpha multiplies every alpha value of
the overlay by tileAlpha / 255 (spec: "Then multiplies the alpha channel by
opacity"); the repository passes tileAlpha = Math.round(opacity * 255). -/
def destInAlpha (tileAlpha : ℤ) (alphas : List ℚ) : List ℚ :=
  alphas.map (fun a => a * tileAlpha / 255)

/-- Modelled from the spec: source-over alpha blending of one overlay channel
value with alpha in 0..255 onto a source channel (spec glossary,
"Composite (alpha-over)"). -/
def overBlend (src overlay alpha : ℚ) : ℚ :=
  alpha / 255 * overlay + (1 - alpha / 255) * src

/-- Modelled from the spec: the sharp raster collaborator's resize with
fit inside scales both dimensions by the largest factor that fits the box,
preserving aspect ratio. -/
def fitInside (natW natH boxW boxH : ℚ) : ℚ × ℚ :=
  let r := min (boxW / natW) (boxH / natH)
  (natW * r, natH * r)

/-- Modelled from the spec: resize with fit inside and withoutEnlargement
additionally caps the scale factor at 1 (never enlarges). -/
def fitInsideNoEnlarge (natW natH boxW boxH : ℚ) : ℚ × ℚ :=
  let r := min (min (boxW / natW) (boxH / natH)) 1
  (natW * r, natH * r)

namespace ImageProcessorService

/-- NestJS createImageWatermark resize target (frequency.dto.ts lines
221-222): wmSize = Math.round(min(targetWidth, targetHeight) * scale). -/
def wmSize (targetWidth targetHeight scale : ℚ) : ℤ :=
  jsRound (min targetWidth targetHeight * scale)

/-- Output dimensions of the NestJS createImageWatermark resize
(frequency.dto.ts lines 225-228): resize(wmSize, wmSize) with fit inside
and withoutEnlargement true, applied to a watermark of native size
natW by natH. -/
def createImageWatermarkDims (natW natH targetWidth targetHeight scale : ℚ) : ℚ × ℚ :=
  fitInsideNoEnlarge natW natH
    (wmSize targetWidth targetHeight scale : ℚ) (wmSize targetWidth targetHeight scale : ℚ)

/-- Alpha channel of the NestJS createImageWatermark output (frequency.dto.ts
lines 231-241): when opacity < 1, a dest-in composite with tile alpha
Math.round(opacity * 255) is applied; otherwise the alphas are unchanged. -/
def createImageWatermarkAlpha (opacity : ℚ) (alphas : List ℚ) : List ℚ :=
  if opacity < 1 then destInAlpha (jsRound (opacity * 255)) alphas else alphas

/-- NestJS formatOutput (frequency.dto.ts lines 375-390): jpeg and webp get
quality from the dto; png and the default branch take no quality option. -/
def formatOutput (output_format : Option String) (quality : ℕ) : Encoder :=
  if output_format = some "jpeg" then Encoder.jpeg quality
  else if output_format = some "webp" then Encoder.webp quality
  else Encoder.png

/-- Frequency DTO fields consumed by the NestJS position calculators
(frequency.dto.ts lines 25-44): spacing_px carries its validated value
(class-transformer default 280 applied upstream); margin_px and position
are re-defaulted inside calculateSinglePosition via JavaScript truthiness. -/
structure FrequencyDto where
  mode : FrequencyMode
  position : Option String
  margin_px : Option ℚ
  spacing_px : ℚ

/-- NestJS calculatePositions (frequency.dto.ts lines 288-306): dispatch on
frequency.mode; grid and diagonal points are genuine positions (tagged
own).  The default branch of the source switch is unreachable for the
three-variant enum. -/
def calculatePositions (frequency : FrequencyDto) (width height : ℚ) :
    List (JsProp WatermarkPosition) :=
  match frequency.mode with
  | FrequencyMode.single =>
      [calculateSinglePosition frequency.margin_px frequency.position width height]
  | FrequencyMode.grid =>
      (calculateGridPositions frequency.spacing_px width height).map JsProp.own
  | FrequencyMode.diagonal_tile =>
      (calculateDiagonalPositions frequency.spacing_px width height).map JsProp.own

/-- NestJS processWatermark control flow (frequency.dto.ts lines 131-178):
metadata check, then validateImageDimensions (lines 395-404), then
createWatermark, then calculatePositions.  The first component counts
invocations of the overlay renderer (createWatermark); the second is the
outcome: an error, or the composite plan. -/
def processWatermark (metadata : Option (ℚ × ℚ)) (maxWidth maxHeight : ℚ)
    (frequency : FrequencyDto) : ℕ × Except ProcError (List (JsProp WatermarkPosition)) :=
  match metadata with
  | none => (0, Except.error ProcError.invalidMetadata)
  | some (w, h) =>
    if w > maxWidth ∨ h > maxHeight then (0, Except.error ProcError.imageTooLarge)
    else (1, Except.ok (calculatePositions frequency w h))

end ImageProcessorService

namespace StandaloneImageProcessorService

/-- Effective opacity of the standalone renderers (standalone-services.ts
lines 111 and 182): dto.opacity or 0.18 under JavaScript truthiness, so a
requested opacity of exactly 0 falls back to the 0.18 default. -/
def effectiveOpacity (opacity : Option ℚ) : ℚ := jsOrQ opacity 0.18

/-- Opacity value written into the SVG text element by the standalone
createTextWatermark (standalone-services.ts lines 108-144). -/
def createTextWatermarkOpacity (opacity : Option ℚ) : ℚ := effectiveOpacity opacity

/-- Tile alpha of the standalone createImageWatermark dest-in composite
(standalone-services.ts line 187): Math.round(opacity * 255) with the
truthiness-defaulted opacity. -/
def overlayTileAlpha (opacity : Option ℚ) : ℤ := jsRound (effectiveOpacity opacity * 255)

/-- Alpha channel of the standalone createImageWatermark output
(standalone-services.ts lines 181-193): the dest-in composite is applied
unconditionally. -/
def createImageWatermarkAlpha (opacity : Option ℚ) (alphas : List ℚ) : List ℚ :=
  destInAlpha (overlayTileAlpha opacity) alphas

/-- Output dimensions of the standalone createImageWatermark resize
(standalone-services.ts lines 169-179): the watermark is resized (fit
inside floor(0.2 * imageWidth) by floor(0.2 * imageHeight)) only when its
native size exceeds 20 percent of the target on either axis; the dto's
wm_scale is never consulted. -/
def createImageWatermarkDims (natW natH imageWidth imageHeight : ℚ) : ℚ × ℚ :=
  let maxWmWidth := imageWidth * 0.2
  let maxWmHeight := imageHeight * 0.2
  if natW > maxWmWidth ∨ natH > maxWmHeight then
    fitInside natW natH (⌊maxWmWidth⌋ : ℚ) (⌊maxWmHeight⌋ : ℚ)
  else (natW, natH)

/-- Standalone output-format step (standalone-services.ts lines 67-79):
format = dto.output_format or 'png'; jpeg and webp are encoded with the
hard-coded quality 95; everything else takes the png branch.  The dto's
quality field is never consulted. -/
def encodeOutput (output_format : Option String) : Encoder :=
  let format := jsOrStr output_format "png"
  if format = "jpeg" then Encoder.jpeg 95
  else if format = "webp" then Encoder.webp 95
  else Encoder.png

/-- Standalone getContentType (standalone-services.ts lines 294-301). -/
def getContentType (format : String) : String :=
  if format = "png" then "image/png"
  else if format = "jpeg" then "image/jpeg"
  else if format = "webp" then "image/webp"
  else "image/png"

/-- Dto fields consumed by the standalone processing model
(watermark.dto.ts, flattened over the nested frequency object). -/
structure CreateWatermarkDto where
  type : Option String
  mode : FrequencyMode
  spacing_px : Option ℚ
  position : Option String
  opacity : Option ℚ
  output_format : Option String
  quality : Option ℕ

/-- Standalone calculatePositions (standalone-services.ts lines 199-218):
grid and diagonal spacing default via JavaScript truthiness (200 and 280)
and their points are genuine positions (tagged own); single passes
frequency.position, whose declared default parameter 'center' applies when
it is undefined.  The default branch of the source switch is unreachable
for the three-variant enum. -/
def calculatePositions (mode : FrequencyMode) (imageWidth imageHeight : ℚ)
    (spacing_px : Option ℚ) (position : Option String) :
    List (JsProp StandalonePosition) :=
  match mode with
  | FrequencyMode.single =>
      calculateSinglePosition imageWidth imageHeight (position.getD "center")
  | FrequencyMode.grid =>
      (calculateGridPositions imageWidth imageHeight (jsOrQ spacing_px 200)).map JsProp.own
  | FrequencyMode.diagonal_tile =>
      (calculateDiagonalPositions imageWidth imageHeight (jsOrQ spacing_px 280)).map JsProp.own

/-- Standalone processWatermark control flow (standalone-services.ts lines
28-83): metadata check, dimension check against the configured maxima, then
createWatermark, calculatePositions, composite and encode.  The first
component counts invocations of the overlay renderer (createWatermark); the
second is the outcome: an error, or the composite plan with the selected
encoder and content type. -/
def processWatermark (metadata : Option (ℚ × ℚ)) (maxImageWidth maxImageHeight : ℚ)
    (dto : CreateWatermarkDto) :
    ℕ × Except ProcError (List (JsProp StandalonePosition) × Encoder × String) :=
  match metadata with
  | none => (0, Except.error ProcError.invalidMetadata)
  | some (w, h) =>
    if w > maxImageWidth ∨ h > maxImageHeight then
      (0, Except.error ProcError.imageTooLarge)
    else
      (1, Except.ok
        (calculatePositions dto.mode w h dto.spacing_px dto.position,
         encodeOutput dto.output_format,
         getContentType (jsOrStr dto.output_format "png")))

end StandaloneImageProcessorService

namespace App

/-- Multipart form fields read by the Hono POST /watermark route
(app.ts lines 47-112).  Form values arrive as strings; a numeric field is
modelled as the rational value its nonempty numeric string denotes, with
the absent and empty-string cases (both falsy under the route's defaulting)
folded into none.  Nonnumeric strings (NaN after Number conversion) are
outside this model.  The output_format and quality fields are listed to
record that the route never reads them. -/
structure FormBody where
  type : Option String
  isTiled : Option String
  tileGap : Option ℚ
  position : Option String
  opacity : Option ℚ
  text : Option String
  fontFamily : Option String
  fontSize : Option ℚ
  color : Option String
  scale : Option ℚ
  output_format : Option String
  quality : Option ℕ

/-- Dto construction of the Hono POST /watermark route (app.ts lines 53-80):
mode is grid exactly when String(body.isTiled) equals 'true'; tileGap,
position and opacity default via JavaScript truthiness applied to the raw
form string (before Number conversion), so a supplied string "0" is truthy
and yields the number 0 rather than the default — hence Option.getD on the
parsed value, not a numeric-falsiness default; output_format and quality
are hard-coded to 'png' and 90. -/
def buildDto (b : FormBody) : StandaloneImageProcessorService.CreateWatermarkDto :=
  { type := b.type
  , mode := if b.isTiled = some "true" then FrequencyMode.grid else FrequencyMode.single
  , spacing_px := some (b.tileGap.getD 200)
  , position := some (jsOrStr b.position "center")
  , opacity := some (b.opacity.getD 0.5)
  , output_format := some "png"
  , quality := some 90 }

end App

/-- Evaluation helper for jsRound at concrete arguments. -/
theorem jsRound_eval (q : ℚ) (z : ℤ) (h1 : (z : ℚ) ≤ q + 1/2) (h2 : q + 1/2 < (z : ℚ) + 1) :
    jsRound q = z := by
  rw [jsRound, Int.floor_eq_iff]
  exact ⟨h1, by push_cast; linarith⟩

/-- A list of nonnegative rationals with a positive member has positive sum. -/
theorem list_sum_pos_of_mem (l : List ℚ) (h0 : ∀ a ∈ l, 0 ≤ a)
    (hpos : ∃ a ∈ l, 0 < a) : 0 < l.sum := by
  induction l with
  | nil => simp at hpos
  | cons x xs ih =>
    simp only [List.sum_cons]
    obtain ⟨a, ha, hap⟩ := hpos
    rcases List.mem_cons.mp ha with rfl | hmem
    · have hxs : 0 ≤ xs.sum :=
        List.sum_nonneg (fun b hb => h0 b (List.mem_cons_of_mem _ hb))
      linarith
    · have hx : 0 ≤ x := h0 x (List.mem_cons_self x xs)
      have hs := ih (fun b hb => h0 b (List.mem_cons_of_mem _ hb)) ⟨a, hmem, hap⟩
      linarith

/-- Left coordinates of the emitted points lying in the row at height y, in
emission order. -/
def rowXs (l : List StandalonePosition) (y : ℚ) : List ℚ :=
  (l.filter (fun p => decide (p.top = y))).map StandalonePosition.left

/-- C7: A decoded image exceeding either configured maximum makes
processWatermark fail with the ImageTooLarge error before the overlay
renderer is invoked, in both services: the overlay-renderer call count is 0
and the outcome is the error, so no composite plan or output exists. -/
theorem c7_too_large_gate (w h maxW maxH : ℚ)
    (dto : StandaloneImageProcessorService.CreateWatermarkDto)
    (frequency : ImageProcessorService.FrequencyDto)
    (hbig : w > maxW ∨ h > maxH) :
    StandaloneImageProcessorService.processWatermark (some (w, h)) maxW maxH dto
        = (0, Except.error ProcError.imageTooLarge)
    ∧ ImageProcessorService.processWatermark (some (w, h)) maxW maxH frequency
        = (0, Except.error ProcError.imageTooLarge) := by
  constructor
  · rw [StandaloneImageProcessorService.processWatermark, if_pos hbig]
  · rw [ImageProcessorService.processWatermark, if_pos hbig]

/-- Witness for c7_too_large_gate at width 5000 against maximum 4096. -/
theorem c7_too_large_gate_witness :
    StandaloneImageProcessorService.processWatermark (some (5000, 100)) 4096 4096
        ⟨none, FrequencyMode.single, none, none, none, none, none⟩
        = (0, Except.error ProcError.imageTooLarge)
    ∧ ImageProcessorService.processWatermark (some (5000, 100)) 4096 4096
        ⟨FrequencyMode.single, none, none, 280⟩
        = (0, Except.error ProcError.imageTooLarge) :=
  c7_too_large_gate 5000 100 4096 4096
    ⟨none, FrequencyMode.single, none, none, none, none, none⟩
    ⟨FrequencyMode.single, none, none, 280⟩
    (Or.inl (by norm_num))

/-- C6 counterexample: the standalone encode step hard-codes quality 95 for
jpeg (and webp), so a request with quality 50 is not encoded with its own
quality value, contradicting the claim that the request's quality is
applied for JPEG/WEBP. -/
theorem c6_quality_counterexample :
    StandaloneImageProcessorService.encodeOutput (some "jpeg") = Encoder.jpeg 95
    ∧ Encoder.jpeg 95 ≠ Encoder.jpeg 50 := by
  constructor
  · rfl
  · intro hcontra
    simp at hcontra

/-- C6 amended: in the NestJS formatOutput the request's quality is applied
for jpeg and webp and ignored for png, as claimed; the standalone service
instead encodes jpeg and webp with the hard-coded quality 95 and never
consults the request's quality. -/
theorem c6_quality_amended (q : ℕ) :
    ImageProcessorService.formatOutput (some "jpeg") q = Encoder.jpeg q
    ∧ ImageProcessorService.formatOutput (some "webp") q = Encoder.webp q
    ∧ ImageProcessorService.formatOutput (some "png") q = Encoder.png
    ∧ StandaloneImageProcessorService.encodeOutput (some "jpeg") = Encoder.jpeg 95
    ∧ StandaloneImageProcessorService.encodeOutput (some "webp") = Encoder.webp 95
    ∧ StandaloneImageProcessorService.encodeOutput (some "png") = Encoder.png := by
  refine ⟨rfl, ?_, ?_, rfl, rfl, rfl⟩
  · rw [ImageProcessorService.formatOutput]
    simp
  · rw [ImageProcessorService.formatOutput]
    simp

/-- C9: Every request accepted by the Hono POST /watermark route produces a
dto whose output_format is 'png' and whose quality is 90, regardless of any
output_format or quality form fields; the standalone service therefore
selects the png encoder, and on the success path the outcome carries
content type image/png. -/
theorem c9_route_png (b : App.FormBody) (w h maxW maxH : ℚ)
    (hw : w ≤ maxW) (hh : h ≤ maxH) :
    (App.buildDto b).output_format = some "png"
    ∧ (App.buildDto b).quality = some 90
    ∧ StandaloneImageProcessorService.encodeOutput (App.buildDto b).output_format
        = Encoder.png
    ∧ StandaloneImageProcessorService.processWatermark (some (w, h)) maxW maxH
        (App.buildDto b)
        = (1, Except.ok
            (StandaloneImageProcessorService.calculatePositions (App.buildDto b).mode w h
              (App.buildDto b).spacing_px (App.buildDto b).position,
             Encoder.png, "image/png")) := by
  refine ⟨rfl, rfl, rfl, ?_⟩
  rw [StandaloneImageProcessorService.processWatermark,
    if_neg (by push_neg; exact ⟨hw, hh⟩)]
  rfl

/-- Witness for c9_route_png: a form body that does supply output_format
jpeg and quality 50 still yields a png dto with quality 90. -/
theorem c9_route_png_witness :
    (App.buildDto ⟨some "text", none, none, none, none, some "hello", none, none,
        none, none, some "jpeg", some 50⟩).output_format = some "png"
    ∧ (App.buildDto ⟨some "text", none, none, none, none, some "hello", none, none,
        none, none, some "jpeg", some 50⟩).quality = some 90
    ∧ StandaloneImageProcessorService.encodeOutput
        (App.buildDto ⟨some "text", none, none, none, none, some "hello", none, none,
          none, none, some "jpeg", some 50⟩).output_format = Encoder.png
    ∧ StandaloneImageProcessorService.processWatermark (some (800, 600)) 4096 4096
        (App.buildDto ⟨some "text", none, none, none, none, some "hello", none, none,
          none, none, some "jpeg", some 50⟩)
        = (1, Except.ok
            (StandaloneImageProcessorService.calculatePositions
              (App.buildDto ⟨some "text", none, none, none, none, some "hello", none,
                none, none, none, some "jpeg", some 50⟩).mode 800 600
              (App.buildDto ⟨some "text", none, none, none, none, some "hello", none,
                none, none, none, some "jpeg", some 50⟩).spacing_px
              (App.buildDto ⟨some "text", none, none, none, none, some "hello", none,
                none, none, none, some "jpeg", some 50⟩).position,
             Encoder.png, "image/png")) :=
  c9_route_png ⟨some "text", none, none, none, none, some "hello", none, none,
    none, none, some "jpeg", some 50⟩ 800 600 4096 4096 (by norm_num) (by norm_num)

/-- C3 counterexample: the claim puts the single watermark at the point
offset by marginPx from the matching edges, so for width 500, height 400,
anchor top-left and marginPx 100 it predicts the point (100, 100); the
standalone service returns its hard-coded (20, 20) instead, for every
margin. -/
theorem c3_single_counterexample :
    StandaloneImageProcessorService.calculateSinglePosition 500 400 "top-left"
      = [JsProp.own ⟨20, 20⟩]
    ∧ (⟨20, 20⟩ : StandalonePosition) ≠ ⟨100, 100⟩ := by
  constructor
  · rfl
  · intro hcontra
    rw [StandalonePosition.mk.injEq] at hcontra
    exact absurd hcontra.1 (by norm_num)

/-- C3 amended: Single mode returns exactly one value in both services, but
the standalone service recognises nine hyphen-spelled anchors with
hard-coded offsets (20 px insets and an implicit 120 by 60 overlay),
ignoring marginPx, while the NestJS service recognises only the five
underscore-spelled anchors of the Position enum, offsetting the four
corners by the truthiness-defaulted margin (margin_px or 24, so a supplied
margin of 0 also behaves as 24) and centering only the center anchor;
edge-center anchors such as top_center fall back to the bottom_right entry
there. -/
theorem c3_single_amended (w h m : ℚ) (pos : String) :
    (StandaloneImageProcessorService.calculateSinglePosition w h pos).length = 1
    ∧ StandaloneImageProcessorService.calculateSinglePosition w h "top-left"
        = [JsProp.own ⟨20, 20⟩]
    ∧ StandaloneImageProcessorService.calculateSinglePosition w h "bottom-right"
        = [JsProp.own ⟨h - 60, w - 120⟩]
    ∧ ImageProcessorService.calculateSinglePosition (some m) (some "top_left") w h
        = JsProp.own ⟨jsOrQ (some m) 24, jsOrQ (some m) 24⟩
    ∧ ImageProcessorService.calculateSinglePosition (some m) (some "bottom_right") w h
        = JsProp.own ⟨w - jsOrQ (some m) 24, h - jsOrQ (some m) 24⟩
    ∧ ImageProcessorService.calculateSinglePosition (some m) (some "center") w h
        = JsProp.own ⟨w / 2, h / 2⟩
    ∧ ImageProcessorService.calculateSinglePosition (some m) (some "top_center") w h
        = JsProp.own ⟨w - jsOrQ (some m) 24, h - jsOrQ (some m) 24⟩
    ∧ ImageProcessorService.calculateSinglePosition (some 0) (some "top_left") w h
        = JsProp.own ⟨24, 24⟩ := by
  refine ⟨rfl, rfl, rfl, rfl, rfl, rfl, rfl, ?_⟩
  simp [ImageProcessorService.calculateSinglePosition, ImageProcessorService.singleTable,
    jsRecordGet, jsOrQ, jsOrStr]

/-- C10 counterexample: the claim asserts that every unmatched position
string falls back to the default entry, yielding a well-defined point; but
JavaScript bracket lookup reaches Object.prototype, so for the position
string constructor both services obtain the truthy inherited value — the
truthiness fallback never fires and what flows on is not a position at
all, in neither service the claimed default entry. -/
theorem c10_position_counterexample :
    StandaloneImageProcessorService.calculateSinglePosition 100 100 "constructor"
      = [JsProp.inherited "constructor"]
    ∧ ([JsProp.inherited "constructor"] : List (JsProp StandalonePosition))
        ≠ [JsProp.own ⟨(⌊(100 : ℚ) / 2⌋ : ℚ) - 30, (⌊(100 : ℚ) / 2⌋ : ℚ) - 60⟩]
    ∧ ImageProcessorService.calculateSinglePosition (some 24) (some "constructor") 100 100
        = JsProp.inherited "constructor"
    ∧ (JsProp.inherited "constructor" : JsProp WatermarkPosition)
        ≠ JsProp.own ⟨100 - 24, 100 - 24⟩ := by
  refine ⟨rfl, ?_, rfl, ?_⟩
  · intro hcontra
    simp only [List.cons.injEq] at hcontra
    exact absurd hcontra.1 (by simp)
  · simp

/-- C10 amended: the single-position lookup never throws, and for every
position string outside both the service's own table keys and the
Object.prototype property names it falls back to the default entry (the
center entry in the standalone service, the bottom_right entry in the
NestJS service); but for a string naming an Object.prototype property
(constructor, toString, __proto__, ...) the truthy inherited value
short-circuits the fallback and no well-defined point results.  The DTO's
underscore-spelled Position enum values are disjoint from the standalone
hyphen keys and from the prototype names, so every enum value lands on the
standalone center entry. -/
theorem c10_position_fallback (w h : ℚ) (margin : Option ℚ) (pos pos2 pos3 : String)
    (p : Position)
    (h2 : pos2 ∉ StandaloneImageProcessorService.hyphenKeys)
    (h2p : pos2 ∉ objectProtoKeys)
    (h3 : pos3 ∉ StandaloneImageProcessorService.underscoreKeys)
    (h3p : pos3 ∉ objectProtoKeys) :
    (StandaloneImageProcessorService.calculateSinglePosition w h pos).length = 1
    ∧ StandaloneImageProcessorService.calculateSinglePosition w h pos2
        = [JsProp.own ⟨(⌊h / 2⌋ : ℚ) - 30, (⌊w / 2⌋ : ℚ) - 60⟩]
    ∧ ImageProcessorService.calculateSinglePosition margin (some pos3) w h
        = JsProp.own ⟨w - jsOrQ margin 24, h - jsOrQ margin 24⟩
    ∧ StandaloneImageProcessorService.calculateSinglePosition w h (Position.key p)
        = [JsProp.own ⟨(⌊h / 2⌋ : ℚ) - 30, (⌊w / 2⌋ : ℚ) - 60⟩]
    ∧ StandaloneImageProcessorService.calculateSinglePosition w h "constructor"
        = [JsProp.inherited "constructor"]
    ∧ ImageProcessorService.calculateSinglePosition margin (some "constructor") w h
        = JsProp.inherited "constructor" := by
  refine ⟨rfl, ?_, ?_, ?_, rfl, rfl⟩
  · simp only [StandaloneImageProcessorService.hyphenKeys, List.mem_cons,
      List.mem_singleton, not_or] at h2
    obtain ⟨n1, n2, n3, n4, n5, n6, n7, n8, n9, -⟩ := h2
    simp [StandaloneImageProcessorService.calculateSinglePosition,
      StandaloneImageProcessorService.singleTable, jsRecordGet, h2p,
      n1, n2, n3, n4, n5, n6, n7, n8, n9]
  · simp only [StandaloneImageProcessorService.underscoreKeys, List.mem_cons,
      List.mem_singleton, not_or] at h3
    obtain ⟨n1, n2, n3, n4, n5, -⟩ := h3
    by_cases he : pos3 = ""
    · subst he
      simp [ImageProcessorService.calculateSinglePosition,
        ImageProcessorService.singleTable, jsRecordGet, jsOrStr]
    · simp [ImageProcessorService.calculateSinglePosition,
        ImageProcessorService.singleTable, jsRecordGet, jsOrStr, he, h3p,
        n1, n2, n3, n4, n5]
  · cases p <;>
      simp [Position.key, StandaloneImageProcessorService.calculateSinglePosition,
        StandaloneImageProcessorService.singleTable, jsRecordGet, objectProtoKeys]

/-- Witness for c10_position_fallback with an arbitrary unmatched string. -/
theorem c10_position_fallback_witness :
    (StandaloneImageProcessorService.calculateSinglePosition 100 50 "bottom-right").length = 1
    ∧ StandaloneImageProcessorService.calculateSinglePosition 100 50 "top_left"
        = [JsProp.own ⟨(⌊(50 : ℚ) / 2⌋ : ℚ) - 30, (⌊(100 : ℚ) / 2⌋ : ℚ) - 60⟩]
    ∧ ImageProcessorService.calculateSinglePosition (some 7) (some "weird") 100 50
        = JsProp.own ⟨100 - jsOrQ (some 7) 24, 50 - jsOrQ (some 7) 24⟩
    ∧ StandaloneImageProcessorService.calculateSinglePosition 100 50
        (Position.key Position.top_left)
        = [JsProp.own ⟨(⌊(50 : ℚ) / 2⌋ : ℚ) - 30, (⌊(100 : ℚ) / 2⌋ : ℚ) - 60⟩]
    ∧ StandaloneImageProcessorService.calculateSinglePosition 100 50 "constructor"
        = [JsProp.inherited "constructor"]
    ∧ ImageProcessorService.calculateSinglePosition (some 7) (some "constructor") 100 50
        = JsProp.inherited "constructor" :=
  c10_position_fallback 100 50 (some 7) "bottom-right" "top_left" "weird"
    Position.top_left (by decide) (by decide) (by decide) (by decide)

/-- C2 counterexample: a standalone image-mode request with opacity exactly 0
does not yield a transparent overlay: JavaScript truthiness replaces the 0
with the 0.18 default, the dest-in tile alpha becomes
Math.round(0.18 * 255) = 46, and an overlay pixel of alpha 255 keeps
alpha 46, so compositing changes source pixels (blending channel 100 with
overlay channel 255 at alpha 46 gives 2296/17, not 100). -/
theorem c2_opacity_counterexample :
    StandaloneImageProcessorService.overlayTileAlpha (some 0) = 46
    ∧ StandaloneImageProcessorService.createImageWatermarkAlpha (some 0) [255] = [46]
    ∧ ([46] : List ℚ) ≠ [0]
    ∧ overBlend 100 255 46 ≠ 100 := by
  have htile : StandaloneImageProcessorService.overlayTileAlpha (some 0) = 46 := by
    rw [StandaloneImageProcessorService.overlayTileAlpha,
      StandaloneImageProcessorService.effectiveOpacity]
    rw [show jsOrQ (some 0) 0.18 = 0.18 by rw [jsOrQ]; norm_num]
    exact jsRound_eval _ 46 (by norm_num) (by norm_num)
  refine ⟨htile, ?_, ?_, ?_⟩
  · rw [StandaloneImageProcessorService.createImageWatermarkAlpha, htile, destInAlpha]
    norm_num
  · intro hcontra
    simp only [List.cons.injEq] at hcontra
    exact absurd hcontra.1 (by norm_num)
  · rw [overBlend]
    norm_num

/-- C2 amended: for the NestJS image-mode renderer (dest-in alpha
multiplication modelled from the spec) opacity 0 zeroes every alpha of the
overlay, alpha-over compositing at overlay alpha 0 leaves source channels
unchanged, and raising opacity from 0.1 to 0.9 strictly increases the alpha
sum of any overlay with a positive-alpha pixel; the standalone renderers
violate the opacity-0 part, treating a requested opacity of 0 as the 0.18
default. -/
theorem c2_opacity_amended (alphas : List ℚ) (src ov : ℚ)
    (h0 : ∀ a ∈ alphas, 0 ≤ a) (hpos : ∃ a ∈ alphas, 0 < a) :
    ImageProcessorService.createImageWatermarkAlpha 0 alphas
        = List.replicate alphas.length 0
    ∧ (ImageProcessorService.createImageWatermarkAlpha (1/10) alphas).sum
        < (ImageProcessorService.createImageWatermarkAlpha (9/10) alphas).sum
    ∧ overBlend src ov 0 = src
    ∧ StandaloneImageProcessorService.effectiveOpacity (some 0) = 0.18
    ∧ StandaloneImageProcessorService.createTextWatermarkOpacity (some 0) = 0.18 := by
  have hsum : 0 < alphas.sum := list_sum_pos_of_mem alphas h0 hpos
  refine ⟨?_, ?_, ?_, ?_, ?_⟩
  · rw [ImageProcessorService.createImageWatermarkAlpha, if_pos (by norm_num)]
    rw [show jsRound (0 * 255) = 0 from jsRound_eval _ 0 (by norm_num) (by norm_num)]
    rw [destInAlpha]
    rw [show (fun a : ℚ => a * (0 : ℤ) / 255) = fun _ : ℚ => (0 : ℚ) by
      funext a; push_cast; ring]
    exact List.map_const' alphas 0
  · rw [ImageProcessorService.createImageWatermarkAlpha, if_pos (by norm_num),
      ImageProcessorService.createImageWatermarkAlpha, if_pos (by norm_num)]
    rw [show jsRound (1/10 * 255) = 26 from jsRound_eval _ 26 (by norm_num) (by norm_num)]
    rw [show jsRound (9/10 * 255) = 230 from jsRound_eval _ 230 (by norm_num) (by norm_num)]
    rw [destInAlpha, destInAlpha]
    rw [show (fun a : ℚ => a * (26 : ℤ) / 255) = fun a : ℚ => a * (26 / 255) by
      funext a; push_cast; ring]
    rw [show (fun a : ℚ => a * (230 : ℤ) / 255) = fun a : ℚ => a * (230 / 255) by
      funext a; push_cast; ring]
    rw [List.sum_map_mul_right, List.sum_map_mul_right]
    rw [List.map_id']
    have hlt : (26 : ℚ) / 255 < 230 / 255 := by norm_num
    exact mul_lt_mul_of_pos_left hlt hsum
  · rw [overBlend]; ring_nf
  · rfl
  · rfl

/-- Witness for c2_opacity_amended on the one-pixel overlay of alpha 255. -/
theorem c2_opacity_amended_witness :
    ImageProcessorService.createImageWatermarkAlpha 0 [255]
        = List.replicate ([255] : List ℚ).length 0
    ∧ (ImageProcessorService.createImageWatermarkAlpha (1/10) [255]).sum
        < (ImageProcessorService.createImageWatermarkAlpha (9/10) [255]).sum
    ∧ overBlend 100 255 0 = 100
    ∧ StandaloneImageProcessorService.effectiveOpacity (some 0) = 0.18
    ∧ StandaloneImageProcessorService.createTextWatermarkOpacity (some 0) = 0.18 :=
  c2_opacity_amended [255] 100 255 (by norm_num) ⟨255, by norm_num, by norm_num⟩

/-- C5 counterexample: the claim predicts that the overlay's governing
dimension equals round(scale * min(W, H)); with a native 10 by 10 watermark,
a 1000 by 1000 target and scale 1/2, the NestJS resize target is 500, but
withoutEnlargement keeps the watermark at 10 by 10, so the governing
dimension is 10, not 500. -/
theorem c5_scale_counterexample :
    ImageProcessorService.wmSize 1000 1000 (1/2) = 500
    ∧ ImageProcessorService.createImageWatermarkDims 10 10 1000 1000 (1/2) = (10, 10)
    ∧ ((10 : ℚ) , (10 : ℚ)).1 ≠ (500 : ℚ) := by
  have hsize : ImageProcessorService.wmSize 1000 1000 (1/2) = 500 := by
    rw [ImageProcessorService.wmSize]
    rw [show min (1000 : ℚ) 1000 * (1/2) = 500 by norm_num]
    exact jsRound_eval _ 500 (by norm_num) (by norm_num)
  refine ⟨hsize, ?_, by norm_num⟩
  rw [ImageProcessorService.createImageWatermarkDims, hsize, fitInsideNoEnlarge]
  norm_num

/-- Governing (larger) output dimension of a fit-inside resize into a square
box that never enlarges: the minimum of the native governing dimension and
the box side. -/
theorem fitInsideNoEnlarge_governing (nw nh box : ℚ) (hw : 0 < nw) (hh : 0 < nh)
    (hb : 0 < box) :
    max (fitInsideNoEnlarge nw nh box box).1 (fitInsideNoEnlarge nw nh box box).2
      = min (max nw nh) box := by
  rw [fitInsideNoEnlarge]
  have hm0 : 0 < max nw nh := lt_of_lt_of_le hw (le_max_left nw nh)
  have hminr : min (box / nw) (box / nh) = box / max nw nh := by
    rcases le_total nw nh with hle | hle
    · rw [max_eq_right hle]
      apply min_eq_right
      rw [div_le_div_iff hh hw]
      nlinarith
    · rw [max_eq_left hle]
      apply min_eq_left
      rw [div_le_div_iff hw hh]
      nlinarith
  have hr0 : 0 ≤ min (min (box / nw) (box / nh)) 1 :=
    le_min (le_min (by positivity) (by positivity)) (by norm_num)
  show max (nw * min (min (box / nw) (box / nh)) 1) (nh * min (min (box / nw) (box / nh)) 1)
      = min (max nw nh) box
  rw [← max_mul_of_nonneg nw nh hr0, hminr]
  by_cases hbm : box ≤ max nw nh
  · rw [min_eq_left ((div_le_one hm0).mpr hbm), mul_comm,
      div_mul_cancel₀ box (ne_of_gt hm0), min_eq_right hbm]
  · push_neg at hbm
    rw [min_eq_right (le_of_lt ((one_lt_div hm0).mpr hbm)), mul_one,
      min_eq_left (le_of_lt hbm)]

/-- C5 amended: the NestJS renderer resizes into a square box of side
round(scale * min(W, H)) with fit-inside and withoutEnlargement, so for a
watermark of any native dimensions the governing output dimension is the
minimum of the native governing dimension and that box side — the scale
determines the size only when it would shrink the watermark.  The
standalone renderer never consults wm_scale at all (it is not a parameter
of its resize): it resizes into the box floor(0.2 W) by floor(0.2 H)
exactly when the native size exceeds 20 percent of the target on either
axis, and otherwise leaves the watermark untouched. -/
theorem c5_scale_amended (natW natH W H s : ℚ) (hw : 0 < natW) (hh : 0 < natH)
    (hbox : 0 < ((ImageProcessorService.wmSize W H s : ℤ) : ℚ)) :
    max (ImageProcessorService.createImageWatermarkDims natW natH W H s).1
        (ImageProcessorService.createImageWatermarkDims natW natH W H s).2
      = min (max natW natH) ((ImageProcessorService.wmSize W H s : ℤ) : ℚ)
    ∧ (natW > W * 0.2 ∨ natH > H * 0.2 →
        StandaloneImageProcessorService.createImageWatermarkDims natW natH W H
          = fitInside natW natH ((⌊W * 0.2⌋ : ℤ) : ℚ) ((⌊H * 0.2⌋ : ℤ) : ℚ))
    ∧ (natW ≤ W * 0.2 → natH ≤ H * 0.2 →
        StandaloneImageProcessorService.createImageWatermarkDims natW natH W H
          = (natW, natH)) := by
  refine ⟨?_, ?_, ?_⟩
  · rw [ImageProcessorService.createImageWatermarkDims]
    exact fitInsideNoEnlarge_governing natW natH _ hw hh hbox
  · intro hgt
    rw [StandaloneImageProcessorService.createImageWatermarkDims, if_pos hgt]
  · intro h1 h2
    rw [StandaloneImageProcessorService.createImageWatermarkDims, if_neg]
    push_neg
    exact ⟨h1, h2⟩

/-- Witness for c5_scale_amended: a native 10 by 20 watermark on a 1000 by
1000 target at scale 1/2 (box side 500). -/
theorem c5_scale_amended_witness :
    max (ImageProcessorService.createImageWatermarkDims 10 20 1000 1000 (1/2)).1
        (ImageProcessorService.createImageWatermarkDims 10 20 1000 1000 (1/2)).2
      = min (max (10 : ℚ) 20) ((ImageProcessorService.wmSize 1000 1000 (1/2) : ℤ) : ℚ)
    ∧ ((10 : ℚ) > 1000 * 0.2 ∨ (20 : ℚ) > 1000 * 0.2 →
        StandaloneImageProcessorService.createImageWatermarkDims 10 20 1000 1000
          = fitInside 10 20 ((⌊(1000 : ℚ) * 0.2⌋ : ℤ) : ℚ) ((⌊(1000 : ℚ) * 0.2⌋ : ℤ) : ℚ))
    ∧ ((10 : ℚ) ≤ 1000 * 0.2 → (20 : ℚ) ≤ 1000 * 0.2 →
        StandaloneImageProcessorService.createImageWatermarkDims 10 20 1000 1000
          = (10, 20)) :=
  c5_scale_amended 10 20 1000 1000 (1/2) (by norm_num) (by norm_num)
    (by
      rw [show ImageProcessorService.wmSize 1000 1000 (1/2) = 500 by
        rw [ImageProcessorService.wmSize, show min (1000 : ℚ) 1000 * (1/2) = 500 by norm_num]
        exact jsRound_eval _ 500 (by norm_num) (by norm_num)]
      norm_num)

/-- Length of a rectangular flatMap of ranges. -/
theorem length_flatMap_range_map (n m : ℕ) (f : ℕ → ℕ → WatermarkPosition) :
    ((List.range n).flatMap (fun i => (List.range m).map (f i))).length = n * m := by
  rw [List.length_flatMap]
  simp [List.map_map, Function.comp_def, List.map_const', List.sum_replicate, smul_eq_mul]

/-- C8 counterexample: a 10 by 10 canvas with spacing 20 is smaller than one
grid cell, yet the NestJS Grid mode emits no point at all (its loops start
at spacing / 2 = 10, which is not below width or height), refuting the
claim that the point list is never empty. -/
theorem c8_grid_nonempty_counterexample :
    ImageProcessorService.calculateGridPositions 20 10 10 = []
    ∧ (ImageProcessorService.calculateGridPositions 20 10 10).length = 0 := by
  have h : ImageProcessorService.calculateGridPositions 20 10 10 = [] := by
    rw [ImageProcessorService.calculateGridPositions]
    rw [show (20 : ℚ) / 2 = 10 by norm_num]
    rw [jsForLoop_eval_nil 20 10 10 (by norm_num) (by norm_num)]
    rfl
  exact ⟨h, by rw [h]; rfl⟩

/-- C8 amended: the standalone Grid mode (loops starting at 0) always yields
at least one point for any canvas of width and height at least 1, the first
point being (0, 0) rather than the claimed (spacing/2, spacing/2); the
NestJS Grid mode (loops starting at spacing / 2) instead yields no points
whenever the height is at most spacing / 2 (symmetrically for the width,
whose outer loop then never runs). -/
theorem c8_grid_nonempty_amended (S W H : ℚ) (hS : 0 < S) (hW : 1 ≤ W) (hH : 1 ≤ H) :
    StandaloneImageProcessorService.calculateGridPositions W H S ≠ []
    ∧ (StandaloneImageProcessorService.calculateGridPositions W H S).head? = some ⟨0, 0⟩
    ∧ (H ≤ S / 2 → ImageProcessorService.calculateGridPositions S W H = [])
    ∧ (W ≤ S / 2 → ImageProcessorService.calculateGridPositions S W H = []) := by
  have hys : jsForLoop S H 0 = 0 :: jsForLoop S H (0 + S) := by
    rw [jsForLoop, dif_pos ⟨hS, by linarith⟩]
  have hxs : jsForLoop S W 0 = 0 :: jsForLoop S W (0 + S) := by
    rw [jsForLoop, dif_pos ⟨hS, by linarith⟩]
  refine ⟨?_, ?_, ?_, ?_⟩
  · rw [StandaloneImageProcessorService.calculateGridPositions, hys, List.flatMap_cons,
      hxs, List.map_cons]
    simp
  · rw [StandaloneImageProcessorService.calculateGridPositions, hys, List.flatMap_cons,
      hxs, List.map_cons]
    simp
  · intro hhalf
    rw [ImageProcessorService.calculateGridPositions,
      jsForLoop_eval_nil S H (S / 2) hS hhalf]
    rfl
  · intro hhalf
    rw [ImageProcessorService.calculateGridPositions,
      jsForLoop_eval_nil S W (S / 2) hS hhalf]
    simp

/-- Witness for c8_grid_nonempty_amended on a 1 by 1 canvas with spacing 20. -/
theorem c8_grid_nonempty_amended_witness :
    StandaloneImageProcessorService.calculateGridPositions 1 1 20 ≠ []
    ∧ (StandaloneImageProcessorService.calculateGridPositions 1 1 20).head? = some ⟨0, 0⟩
    ∧ ((1 : ℚ) ≤ 20 / 2 → ImageProcessorService.calculateGridPositions 20 1 1 = [])
    ∧ ((1 : ℚ) ≤ 20 / 2 → ImageProcessorService.calculateGridPositions 20 1 1 = []) :=
  c8_grid_nonempty_amended 20 1 1 (by norm_num) (by norm_num) (by norm_num)

/-- C1 counterexample: for width 1000, height 860, spacing 250 (all in range)
the NestJS Grid mode emits 12 points (3 rows of 4), but the claimed count
ceil(W/S) * ceil(H/S) is 16, refuting the general count formula. -/
theorem c1_grid_count_counterexample :
    (ImageProcessorService.calculateGridPositions 250 1000 860).length = 12
    ∧ (⌈(1000 : ℚ) / 250⌉).toNat * (⌈(860 : ℚ) / 250⌉).toNat = 16
    ∧ (12 : ℕ) ≠ 16 := by
  refine ⟨?_, ?_, by norm_num⟩
  · rw [ImageProcessorService.calculateGridPositions,
      jsForLoop_eval 250 860 (250 / 2) 3 (by norm_num) (by norm_num) (by norm_num),
      jsForLoop_eval 250 1000 (250 / 2) 4 (by norm_num) (by norm_num) (by norm_num)]
    rw [List.length_flatMap]
    simp [List.map_map, Function.comp_def, List.map_const', List.sum_replicate]
  · rw [ceil_toNat_eq ((1000 : ℚ) / 250) 4 (by norm_num) (by norm_num),
      ceil_toNat_eq ((860 : ℚ) / 250) 4 (by norm_num) (by norm_num)]

/-- C1 amended: the NestJS Grid mode emits exactly the points
(S/2 + j*S, S/2 + i*S), row-major with y outer and x inner, and its total
count is the per-axis iteration count ceil((H - S/2)/S) times
ceil((W - S/2)/S) — which differs from the claimed ceil(W/S) * ceil(H/S)
in general; at width 1000, height 1000, spacing 250 it does emit exactly
16 points, each coordinate 125 plus a multiple of 250.  (The standalone
Grid mode instead starts both loops at 0, so its points are plain
multiples of the spacing.) -/
theorem c1_grid_amended (S W H : ℚ) (hS : 0 < S) :
    ImageProcessorService.calculateGridPositions S W H
        = (List.range ((⌈(H - S / 2) / S⌉).toNat)).flatMap (fun i =>
            (List.range ((⌈(W - S / 2) / S⌉).toNat)).map (fun j =>
              ⟨S / 2 + j * S, S / 2 + i * S⟩))
    ∧ (ImageProcessorService.calculateGridPositions S W H).length
        = (⌈(H - S / 2) / S⌉).toNat * (⌈(W - S / 2) / S⌉).toNat
    ∧ ImageProcessorService.calculateGridPositions 250 1000 1000
        = (List.range 4).flatMap (fun i =>
            (List.range 4).map (fun j => ⟨125 + j * 250, 125 + i * 250⟩))
    ∧ (ImageProcessorService.calculateGridPositions 250 1000 1000).length = 16
    ∧ (⌈(1000 : ℚ) / 250⌉).toNat * (⌈(1000 : ℚ) / 250⌉).toNat = 16
    ∧ StandaloneImageProcessorService.calculateGridPositions 1000 1000 250
        = (List.range 4).flatMap (fun i =>
            (List.range 4).map (fun j => ⟨(i : ℚ) * 250, (j : ℚ) * 250⟩)) := by
  have hgen : ∀ s w h : ℚ, 0 < s →
      ImageProcessorService.calculateGridPositions s w h
        = (List.range ((⌈(h - s / 2) / s⌉).toNat)).flatMap (fun i =>
            (List.range ((⌈(w - s / 2) / s⌉).toNat)).map (fun j =>
              ⟨s / 2 + j * s, s / 2 + i * s⟩)) := by
    intro s w h hs
    rw [ImageProcessorService.calculateGridPositions, jsForLoop_eq s h hs (s / 2),
      jsForLoop_eq s w hs (s / 2), List.flatMap_map]
    simp only [List.map_map]
    rfl
  refine ⟨hgen S W H hS, ?_, ?_, ?_, ?_, ?_⟩
  · rw [hgen S W H hS, length_flatMap_range_map]
  · rw [hgen 250 1000 1000 (by norm_num)]
    rw [ceil_toNat_eq (((1000 : ℚ) - 250 / 2) / 250) 4 (by norm_num) (by norm_num)]
    rw [show (250 : ℚ) / 2 = 125 by norm_num]
  · rw [hgen 250 1000 1000 (by norm_num)]
    rw [ceil_toNat_eq (((1000 : ℚ) - 250 / 2) / 250) 4 (by norm_num) (by norm_num)]
    rw [length_flatMap_range_map]
  · rw [ceil_toNat_eq ((1000 : ℚ) / 250) 4 (by norm_num) (by norm_num)]
  · rw [StandaloneImageProcessorService.calculateGridPositions,
      jsForLoop_eq 250 1000 (by norm_num) 0, List.flatMap_map]
    rw [ceil_toNat_eq (((1000 : ℚ) - 0) / 250) 4 (by norm_num) (by norm_num)]
    simp only [List.map_map, Function.comp_def, zero_add]

/-- Witness for c1_grid_amended at spacing 250 on a 1000 by 1000 canvas. -/
theorem c1_grid_amended_witness :
    ImageProcessorService.calculateGridPositions 250 1000 1000
        = (List.range ((⌈((1000 : ℚ) - 250 / 2) / 250⌉).toNat)).flatMap (fun i =>
            (List.range ((⌈((1000 : ℚ) - 250 / 2) / 250⌉).toNat)).map (fun j =>
              ⟨(250 : ℚ) / 2 + j * 250, (250 : ℚ) / 2 + i * 250⟩))
    ∧ (ImageProcessorService.calculateGridPositions 250 1000 1000).length
        = (⌈((1000 : ℚ) - 250 / 2) / 250⌉).toNat * (⌈((1000 : ℚ) - 250 / 2) / 250⌉).toNat
    ∧ ImageProcessorService.calculateGridPositions 250 1000 1000
        = (List.range 4).flatMap (fun i =>
            (List.range 4).map (fun j => ⟨125 + j * 250, 125 + i * 250⟩))
    ∧ (ImageProcessorService.calculateGridPositions 250 1000 1000).length = 16
    ∧ (⌈(1000 : ℚ) / 250⌉).toNat * (⌈(1000 : ℚ) / 250⌉).toNat = 16
    ∧ StandaloneImageProcessorService.calculateGridPositions 1000 1000 250
        = (List.range 4).flatMap (fun i =>
            (List.range 4).map (fun j => ⟨(i : ℚ) * 250, (j : ℚ) * 250⟩)) :=
  c1_grid_amended 250 1000 1000 (by norm_num)

/-- C4 counterexample: the standalone DiagonalTile implementation carries no
row stagger at all.  For a 100 by 100 canvas with spacing 50 it emits the
six points (top, left) = (0,-50), (50,-50), (100,-50), (0,0), (50,0),
(100,0); the adjacent rows at heights 0 and 50 have identical x-lists
[-50, 0], not lists offset by spacing / 2 = 25 as the claim requires. -/
theorem c4_diagonal_counterexample :
    StandaloneImageProcessorService.calculateDiagonalPositions 100 100 50
      = [⟨0, -50⟩, ⟨50, -50⟩, ⟨100, -50⟩, ⟨0, 0⟩, ⟨50, 0⟩, ⟨100, 0⟩]
    ∧ rowXs (StandaloneImageProcessorService.calculateDiagonalPositions 100 100 50) 0
        = [-50, 0]
    ∧ rowXs (StandaloneImageProcessorService.calculateDiagonalPositions 100 100 50) 50
        = [-50, 0]
    ∧ rowXs (StandaloneImageProcessorService.calculateDiagonalPositions 100 100 50) 50
        ≠ (rowXs (StandaloneImageProcessorService.calculateDiagonalPositions 100 100 50) 0).map
            (fun x => x + 25)
    ∧ rowXs (StandaloneImageProcessorService.calculateDiagonalPositions 100 100 50) 0
        ≠ (rowXs (StandaloneImageProcessorService.calculateDiagonalPositions 100 100 50) 50).map
            (fun x => x + 25) := by
  have hcount : StandaloneImageProcessorService.ceilSqrtDiv
      ((100 : ℚ) * 100 + 100 * 100) 50 = 3 := by
    rw [show ((100 : ℚ) * 100 + 100 * 100) = 20000 by norm_num]
    rw [StandaloneImageProcessorService.ceilSqrtDiv, dif_pos (by norm_num)]
    rw [Nat.find_eq_iff]
    refine ⟨by norm_num, ?_⟩
    intro m hm
    interval_cases m <;> norm_num
  have hlist : StandaloneImageProcessorService.calculateDiagonalPositions 100 100 50
      = [⟨0, -50⟩, ⟨50, -50⟩, ⟨100, -50⟩, ⟨0, 0⟩, ⟨50, 0⟩, ⟨100, 0⟩] := by
    simp only [StandaloneImageProcessorService.calculateDiagonalPositions, hcount]
    rw [show List.range 3 = [0, 1, 2] from rfl]
    norm_num [List.flatMap_cons, List.flatMap_nil, List.filterMap_cons, List.filterMap_nil]
  have hrow0 : rowXs (StandaloneImageProcessorService.calculateDiagonalPositions
      100 100 50) 0 = [-50, 0] := by
    rw [hlist]
    norm_num [rowXs, List.filter_cons, List.filter_nil, decide_eq_true_eq]
  have hrow50 : rowXs (StandaloneImageProcessorService.calculateDiagonalPositions
      100 100 50) 50 = [-50, 0] := by
    rw [hlist]
    norm_num [rowXs, List.filter_cons, List.filter_nil, decide_eq_true_eq]
  refine ⟨hlist, hrow0, hrow50, ?_, ?_⟩
  · rw [hrow0, hrow50]
    intro hcontra
    simp only [List.map_cons, List.map_nil, List.cons.injEq] at hcontra
    exact absurd hcontra.1 (by norm_num)
  · rw [hrow0, hrow50]
    intro hcontra
    simp only [List.map_cons, List.map_nil, List.cons.injEq] at hcontra
    exact absurd hcontra.1 (by norm_num)

/-- C4 amended: the NestJS DiagonalTile does scan rows stepping by S from -S
while below H + S (and columns from -S while below W + S), each point's
horizontal offset determined by the truncated-remainder parity of
floor(y / S), and the offsets of two vertically adjacent rows always differ
by exactly S / 2 in one direction or the other; the standalone
DiagonalTile implementation does not have this property (see the
counterexample), using an unstaggered scan derived from the canvas
diagonal instead. -/
theorem c4_diagonal_amended (S W H y : ℚ) (hS : 0 < S) :
    (ImageProcessorService.diagRowOffset S (y + S) - ImageProcessorService.diagRowOffset S y
        = S / 2
      ∨ ImageProcessorService.diagRowOffset S y - ImageProcessorService.diagRowOffset S (y + S)
        = S / 2)
    ∧ ImageProcessorService.calculateDiagonalPositions S W H
        = (jsForLoop S (H + S) (-S)).flatMap (fun row =>
            (jsForLoop S (W + S) (-S)).map (fun x =>
              ⟨x + ImageProcessorService.diagRowOffset S row, row⟩)) := by
  refine ⟨?_, rfl⟩
  have hfloor : ⌊(y + S) / S⌋ = ⌊y / S⌋ + 1 := by
    rw [show (y + S) / S = y / S + 1 by rw [add_div, div_self (ne_of_gt hS)]]
    exact Int.floor_add_one _
  have hpar : ∀ t : ℤ, ((t + 1).tmod 2 = 0 ↔ ¬ t.tmod 2 = 0) := by
    intro t
    rw [← Int.dvd_iff_tmod_eq_zero, ← Int.dvd_iff_tmod_eq_zero]
    omega
  rw [ImageProcessorService.diagRowOffset, ImageProcessorService.diagRowOffset, hfloor]
  by_cases ht : (⌊y / S⌋).tmod 2 = 0
  · rw [if_pos ht, if_neg (fun hc => (hpar _).mp hc ht)]
    left
    ring
  · rw [if_neg ht, if_pos ((hpar _).mpr ht)]
    right
    ring

/-- Witness for c4_diagonal_amended at spacing 50, row 0, canvas 100 by 100. -/
theorem c4_diagonal_amended_witness :
    (ImageProcessorService.diagRowOffset 50 ((0 : ℚ) + 50)
          - ImageProcessorService.diagRowOffset 50 0 = 50 / 2
      ∨ ImageProcessorService.diagRowOffset 50 0
          - ImageProcessorService.diagRowOffset 50 ((0 : ℚ) + 50) = 50 / 2)
    ∧ ImageProcessorService.calculateDiagonalPositions 50 100 100
        = (jsForLoop 50 ((100 : ℚ) + 50) (-50)).flatMap (fun row =>
            (jsForLoop 50 ((100 : ℚ) + 50) (-50)).map (fun x =>
              ⟨x + ImageProcessorService.diagRowOffset 50 row, row⟩)) :=
  c4_diagonal_amended 50 100 100 0 (by norm_num)

end Watermark
